import Mathlib

/-!
Shallow embedding of the account-security and session-lifecycle core of the
SocialMediaPlatform backend (Mongoose `User` model, auth controller and auth
middleware), together with theorems settling the frozen claims about it.

Conventions of the embedding:
* Timestamps are naturals, milliseconds since the epoch (`Date.now()`).
* A Mongo document field that may be unset is an `Option`.
* External cryptographic primitives (bcrypt, SHA-256, the JWT signature,
  `crypto.randomBytes`) are modelled as parameters: the hash functions are
  function arguments, the random refresh/verification cleartexts are explicit
  arguments, and the outcome of `bcrypt.compare` is an explicit argument of
  type `CompareOutcome` (it resolves to a boolean or rejects).
* `findOne` results are passed in as `Option UserDoc` where the query is a
  lookup by identifier; where the query's own conditions are the point of a
  claim (refresh-token and verification/reset-token queries) the query
  predicate is embedded faithfully, including Mongo's semantics for
  conditions on fields of array elements (each condition may be satisfied by
  a different element unless `$elemMatch` is used).
-/

namespace SMP

/-- One element of the `refreshTokens` array of the `User` schema. -/
structure RefreshTokenRec where
  token : String
  createdAt : Nat
  expiresAt : Nat
deriving DecidableEq

/-- The security-relevant slice of a `User` document. -/
structure UserDoc where
  id : String
  username : String
  email : String
  /-- The bcrypt digest stored in the `password` field. -/
  password : String
  role : String
  loginAttempts : Nat
  lockUntil : Option Nat
  refreshTokens : List RefreshTokenRec
  emailVerificationToken : Option String
  emailVerificationExpire : Option Nat
  resetPasswordToken : Option String
  resetPasswordExpire : Option Nat
  emailVerified : Bool
  lastLogin : Option Nat
  isActive : Bool
deriving DecidableEq

/-- Environment configuration consumed by the security core
(`MAX_LOGIN_ATTEMPTS`, `LOCKOUT_TIME` in minutes, `JWT_SECRET`,
`JWT_ISSUER`, `JWT_AUDIENCE`). -/
structure Config where
  maxLoginAttempts : Nat
  lockoutTime : Nat
  jwtSecret : String
  jwtIssuer : String
  jwtAudience : String
deriving DecidableEq

/-- The `isLocked` virtual: `!!(this.lockUntil && this.lockUntil > Date.now())`. -/
def isLocked (u : UserDoc) (now : Nat) : Bool :=
  match u.lockUntil with
  | some t => now < t
  | none => false

/-- The `incLoginAttempts` instance method.  If a previous lock has expired
(`lockUntil < now`), restart the counter at 1 and clear the lock; otherwise
increment the counter and, when the post-increment count reaches
`MAX_LOGIN_ATTEMPTS`, set `lockUntil = now + LOCKOUT_TIME minutes`. -/
def incLoginAttempts (cfg : Config) (u : UserDoc) (now : Nat) : UserDoc :=
  match u.lockUntil with
  | some t =>
    if t < now then
      { u with lockUntil := none, loginAttempts := 1 }
    else
      { u with
        loginAttempts := u.loginAttempts + 1,
        lockUntil :=
          if cfg.maxLoginAttempts ≤ u.loginAttempts + 1 then
            some (now + cfg.lockoutTime * 60 * 1000)
          else u.lockUntil }
  | none =>
    { u with
      loginAttempts := u.loginAttempts + 1,
      lockUntil :=
        if cfg.maxLoginAttempts ≤ u.loginAttempts + 1 then
          some (now + cfg.lockoutTime * 60 * 1000)
        else u.lockUntil }

/-- Outcome of the external `bcrypt.compare` call: it either resolves to a
boolean or rejects with an internal error. -/
inductive CompareOutcome where
  | ok (b : Bool)
  | err
deriving DecidableEq

/-- The `matchPassword` instance method.  The `try` returns the boolean that
`bcrypt.compare` resolved to; the `catch` only logs, so on an internal
comparison failure the method falls off the end and returns `undefined`,
modelled as `none`.  It never throws. -/
def matchPassword : CompareOutcome → Option Bool
  | .ok b => some b
  | .err => none

/-- The machine-checkable rejection reasons of `getAuthenticatedUser`. -/
inductive AuthReason where
  | USER_NOT_FOUND
  | ACCOUNT_LOCKED
  | INVALID_PASSWORD
deriving DecidableEq

/-- Result of one `getAuthenticatedUser` call: the persisted state of the
account after the call (`none` when no account matched the identifier),
whether the attempt succeeded, and the rejection reason if not. -/
structure AuthOutcome where
  stored : Option UserDoc
  success : Bool
  reason : Option AuthReason
deriving DecidableEq

/-- The `getAuthenticatedUser` static.  `found` is the result of the
`findOne` by username-or-email; `cmp` is the outcome of the `bcrypt.compare`
inside `matchPassword`.  Not found rejects with `USER_NOT_FOUND`; a locked
account increments the attempt counter and rejects with `ACCOUNT_LOCKED`
before any password comparison; a non-`true` match result increments the
counter and rejects with `INVALID_PASSWORD`; on success a positive counter
is cleared together with the lock (`$unset: loginAttempts, lockUntil`). -/
def getAuthenticatedUser (cfg : Config) (found : Option UserDoc)
    (cmp : CompareOutcome) (now : Nat) : AuthOutcome :=
  match found with
  | none => ⟨none, false, some .USER_NOT_FOUND⟩
  | some u =>
    if isLocked u now then
      ⟨some (incLoginAttempts cfg u now), false, some .ACCOUNT_LOCKED⟩
    else
      match matchPassword cmp with
      | some true =>
        let u' :=
          if 0 < u.loginAttempts then
            { u with loginAttempts := 0, lockUntil := none }
          else u
        ⟨some u', true, none⟩
      | _ => ⟨some (incLoginAttempts cfg u now), false, some .INVALID_PASSWORD⟩

/-- The persisted-state component of one login attempt against an existing
account (the document after `getAuthenticatedUser` ran its updates). -/
def attemptStep (cfg : Config) (u : UserDoc) (cmp : CompareOutcome) (now : Nat) :
    UserDoc :=
  (getAuthenticatedUser cfg (some u) cmp now).stored.getD u

/-- Payload of a signed access token (`id`, `email`, `username`, `role`). -/
structure JwtPayload where
  id : String
  email : String
  username : String
  role : String
deriving DecidableEq

/-- A JWT as seen by the verifier: either malformed, or a payload signed with
some key, carrying issuer and audience claims and an expiry instant. -/
inductive Token where
  | malformed
  | signed (payload : JwtPayload) (iss aud : String) (exp : Nat) (key : String)
deriving DecidableEq

/-- Lifetime of an access token: `JWT_EXPIRE=30d` in milliseconds. -/
def jwtExpireMs : Nat := 30 * 24 * 60 * 60 * 1000

/-- Lifetime of a refresh token set by `generateRefreshToken`: 7 days. -/
def refreshExpireMs : Nat := 7 * 24 * 60 * 60 * 1000

/-- The `getSignedJwtToken` instance method: sign `{ id, email, username,
role }` with `JWT_SECRET`, issuer `JWT_ISSUER`, audience `JWT_AUDIENCE` and
expiry `JWT_EXPIRE` from `now`. -/
def getSignedJwtToken (cfg : Config) (u : UserDoc) (now : Nat) : Token :=
  .signed ⟨u.id, u.email, u.username, u.role⟩ cfg.jwtIssuer cfg.jwtAudience
    (now + jwtExpireMs) cfg.jwtSecret

/-- Error kinds raised by `jwt.verify`. -/
inductive VerifyError where
  | TokenExpiredError
  | JsonWebTokenError
deriving DecidableEq

/-- The `jwt.verify(token, secret)` call as made by the `protect`
middleware: no `issuer` or `audience` option is passed, so only the
signature and the expiry claim are checked.  A malformed token or a
signature made with a different key raises `JsonWebTokenError`; a
well-signed but expired token raises `TokenExpiredError`. -/
def jwtVerify (tok : Token) (secret : String) (now : Nat) :
    Except VerifyError JwtPayload :=
  match tok with
  | .malformed => .error .JsonWebTokenError
  | .signed p _ _ e key =>
    if key ≠ secret then .error .JsonWebTokenError
    else if e ≤ now then .error .TokenExpiredError
    else .ok p

/-- Outcome of the `protect` middleware. -/
inductive ProtectResult where
  | noToken
  | tokenExpired
  | invalidToken
  | userNotFound
  | deactivated
  | ok (u : UserDoc)
deriving DecidableEq

/-- The `protect` middleware: extract the bearer token, `jwt.verify` it
against `JWT_SECRET` (distinct errors for expired and invalid/malformed),
load the subject account by id (404 when absent), reject deactivated
accounts, else attach the principal.  `lookup` is the `findById` query. -/
def protect (cfg : Config) (tok : Option Token) (lookup : String → Option UserDoc)
    (now : Nat) : ProtectResult :=
  match tok with
  | none => .noToken
  | some t =>
    match jwtVerify t cfg.jwtSecret now with
    | .error .TokenExpiredError => .tokenExpired
    | .error .JsonWebTokenError => .invalidToken
    | .ok p =>
      match lookup p.id with
      | none => .userNotFound
      | some u => if u.isActive then .ok u else .deactivated

/-- The `generateRefreshToken` instance method with the random 40-byte hex
cleartext passed in as `newTok`: push a record expiring in 7 days. -/
def generateRefreshToken (u : UserDoc) (newTok : String) (now : Nat) : UserDoc :=
  { u with refreshTokens :=
      u.refreshTokens ++ [⟨newTok, now, now + refreshExpireMs⟩] }

/-- The `removeRefreshToken` instance method: keep only records whose token
differs from the one being removed. -/
def removeRefreshToken (u : UserDoc) (tokenToRemove : String) : UserDoc :=
  { u with refreshTokens :=
      u.refreshTokens.filter (fun r => r.token ≠ tokenToRemove) }

/-- The `cleanExpiredTokens` instance method: keep only records with
`expiresAt > now`. -/
def cleanExpiredTokens (u : UserDoc) (now : Nat) : UserDoc :=
  { u with refreshTokens := u.refreshTokens.filter (fun r => now < r.expiresAt) }

/-- The selection predicate of the `findOne` in the refresh-token endpoint:
`{ 'refreshTokens.token': supplied, 'refreshTokens.expiresAt': { $gt: now } }`.
Mongo evaluates each condition on an array field against the array
independently (no `$elemMatch`), so the document matches as soon as SOME
record carries the supplied token and SOME record — not necessarily the
same one — is unexpired. -/
def refreshQueryMatches (u : UserDoc) (supplied : String) (now : Nat) : Bool :=
  u.refreshTokens.any (fun r => r.token = supplied) &&
    u.refreshTokens.any (fun r => now < r.expiresAt)

/-- The `refreshToken` controller for the account the `findOne` is matched
against: if the query matches, mint a new access token, remove the consumed
record, push a fresh record with cleartext `newTok` and return both tokens;
otherwise reject. -/
def refreshEndpoint (cfg : Config) (u : UserDoc) (supplied newTok : String)
    (now : Nat) : Option (UserDoc × Token × String) :=
  if refreshQueryMatches u supplied now then
    let access := getSignedJwtToken cfg u now
    let u' := generateRefreshToken (removeRefreshToken u supplied) newTok now
    some (u', access, newTok)
  else none

/-- The `verifyEmail` controller for one account, with the SHA-256 digest
function passed in as `h`: the `findOne` requires the stored
`emailVerificationToken` to equal `h supplied` and the stored expiry to be
`$gt: now`; on success mark the email verified and clear digest and
expiry. -/
def verifyEmail (h : String → String) (u : UserDoc) (supplied : String)
    (now : Nat) : Option UserDoc :=
  if u.emailVerificationToken = some (h supplied)
      && (match u.emailVerificationExpire with
          | some e => decide (now < e)
          | none => false) then
    some { u with
      emailVerified := true,
      emailVerificationToken := none,
      emailVerificationExpire := none }
  else none

/-- The `resetPassword` controller for one account, with SHA-256 as `h` and
the bcrypt pre-save hook as `bhash`: the `findOne` requires the stored
`resetPasswordToken` to equal `h supplied` and the stored expiry to be
`$gt: now`; on success install the digest of the new password, clear the
reset fields and empty `refreshTokens`. -/
def resetPassword (h bhash : String → String) (u : UserDoc)
    (supplied newPassword : String) (now : Nat) : Option UserDoc :=
  if u.resetPasswordToken = some (h supplied)
      && (match u.resetPasswordExpire with
          | some e => decide (now < e)
          | none => false) then
    some { u with
      password := bhash newPassword,
      resetPasswordToken := none,
      resetPasswordExpire := none,
      refreshTokens := [] }
  else none

/-- The `getEmailVerificationToken` instance method with the random
cleartext passed in: store the SHA-256 digest and an expiry of
`EMAIL_VERIFICATION_EXPIRE` hours (24) from `now`. -/
def getEmailVerificationToken (h : String → String) (u : UserDoc)
    (cleartext : String) (now : Nat) : UserDoc :=
  { u with
    emailVerificationToken := some (h cleartext),
    emailVerificationExpire := some (now + 24 * 60 * 60 * 1000) }

/-- The `getResetPasswordToken` instance method with the random cleartext
passed in: store the SHA-256 digest and an expiry of
`RESET_PASSWORD_EXPIRE` minutes (10) from `now`. -/
def getResetPasswordToken (h : String → String) (u : UserDoc)
    (cleartext : String) (now : Nat) : UserDoc :=
  { u with
    resetPasswordToken := some (h cleartext),
    resetPasswordExpire := some (now + 10 * 60 * 1000) }

/-- Outcome of the single-attempt `sendEmail` collaborator. -/
inductive EmailResult where
  | sent
  | failed
deriving DecidableEq

/-- Outcome of the `register` controller after the duplicate check: the
account as persisted when the handler returns, plus whether the
registration response was a success. -/
structure RegisterOutcome where
  stored : UserDoc
  success : Bool
deriving DecidableEq

/-- The tail of the `register` controller, after `User.create` produced
`created`: issue a verification token (digest + expiry committed with a
first save), attempt delivery; on delivery success mint tokens and respond
201; on delivery failure set the verification fields back to `undefined`,
save, and respond with an error — the account itself is kept. -/
def register (h : String → String) (created : UserDoc)
    (verCleartext refreshTok : String) (delivery : EmailResult) (now : Nat) :
    RegisterOutcome :=
  let u1 := getEmailVerificationToken h created verCleartext now
  match delivery with
  | .sent => ⟨generateRefreshToken u1 refreshTok now, true⟩
  | .failed =>
    ⟨{ u1 with emailVerificationToken := none, emailVerificationExpire := none },
      false⟩

/-- The tail of the `forgotPassword` controller for the account found by
email: issue a reset token (digest + expiry committed with a save), attempt
delivery; on failure set both reset fields back to `undefined` and save. -/
def forgotPassword (h : String → String) (u : UserDoc)
    (resetCleartext : String) (delivery : EmailResult) (now : Nat) :
    RegisterOutcome :=
  let u1 := getResetPasswordToken h u resetCleartext now
  match delivery with
  | .sent => ⟨u1, true⟩
  | .failed =>
    ⟨{ u1 with resetPasswordToken := none, resetPasswordExpire := none }, false⟩

/-- Result of the `login` controller: persisted account state, rejection
reason (as surfaced from `getAuthenticatedUser`), and the token pair on
success. -/
structure LoginOutcome where
  stored : Option UserDoc
  reason : Option AuthReason
  tokens : Option (Token × String)
deriving DecidableEq

/-- The `login` controller: run `getAuthenticatedUser`; on success record
`lastLogin = now`, prune expired refresh tokens, mint an access token and a
fresh refresh token (`newTok`), persist, and return both tokens. -/
def login (cfg : Config) (found : Option UserDoc) (cmp : CompareOutcome)
    (newTok : String) (now : Nat) : LoginOutcome :=
  let o := getAuthenticatedUser cfg found cmp now
  match o.stored, o.reason with
  | some u, none =>
    let u1 := cleanExpiredTokens { u with lastLogin := some now } now
    let access := getSignedJwtToken cfg u1 now
    let u2 := generateRefreshToken u1 newTok now
    ⟨some u2, none, some (access, newTok)⟩
  | st, r => ⟨st, r, none⟩

/-- Account states reachable by the lockout subsystem: a freshly created
account (zero attempts, no lock) and closure under login attempts at
arbitrary times with arbitrary password-comparison outcomes. -/
inductive Reachable (cfg : Config) : UserDoc → Prop where
  | fresh : ∀ u : UserDoc, u.loginAttempts = 0 → u.lockUntil = none →
      Reachable cfg u
  | attempt : ∀ (u : UserDoc) (cmp : CompareOutcome) (now : Nat),
      Reachable cfg u → Reachable cfg (attemptStep cfg u cmp now)

/-- Iterated failed login attempts at the given instants. -/
def failedLogins (cfg : Config) (u : UserDoc) (ts : List Nat) : UserDoc :=
  ts.foldl (fun v t => attemptStep cfg v (.ok false) t) u

/-- The environment configuration shipped in the repository's `.env`
template: `MAX_LOGIN_ATTEMPTS=5`, `LOCKOUT_TIME=30`. -/
def cfg0 : Config :=
  ⟨5, 30, "your_super_secret_jwt_key_change_this_in_production",
    "social-media-platform", "social-media-users"⟩

/-- A concrete fresh account used by the witnesses. -/
def alice : UserDoc :=
  { id := "u1", username := "alice", email := "alice@example.com",
    password := "digest", role := "user", loginAttempts := 0,
    lockUntil := none, refreshTokens := [], emailVerificationToken := none,
    emailVerificationExpire := none, resetPasswordToken := none,
    resetPasswordExpire := none, emailVerified := false, lastLogin := none,
    isActive := true }

/-- The concrete account of C2's witness: five failures, locked until
instant 1800000. -/
def aliceLocked : UserDoc :=
  { alice with loginAttempts := 5, lockUntil := some 1800000 }

/-- The concrete account of C4's failing input: one expired record with
token `T` and one unexpired record with a different token `U`. -/
def c4user : UserDoc :=
  { alice with refreshTokens := [⟨"T", 0, 10⟩, ⟨"U", 0, 2000⟩] }

/-- C2: every rejected login attempt carries exactly one of the reasons
`USER_NOT_FOUND` (no account matched the identifier), `ACCOUNT_LOCKED`
(account currently locked) or `INVALID_PASSWORD`, evaluated in that order;
a locked account still has its attempt counter incremented and the outcome
is the same for every password-comparison result, i.e. the rejection
happens before any password comparison. -/
theorem auth_reason_taxonomy (cfg : Config) (found : Option UserDoc)
    (cmp : CompareOutcome) (now : Nat) :
    ((getAuthenticatedUser cfg found cmp now).reason = some .USER_NOT_FOUND
      ↔ found = none)
    ∧ (∀ u, found = some u → isLocked u now = true →
        (getAuthenticatedUser cfg found cmp now).reason = some .ACCOUNT_LOCKED
        ∧ (getAuthenticatedUser cfg found cmp now).stored
            = some (incLoginAttempts cfg u now)
        ∧ ∀ cmp2, getAuthenticatedUser cfg found cmp2 now
            = getAuthenticatedUser cfg found cmp now)
    ∧ (∀ u, found = some u → isLocked u now = false →
        ((getAuthenticatedUser cfg found cmp now).reason = some .INVALID_PASSWORD
          ↔ matchPassword cmp ≠ some true)
        ∧ ((getAuthenticatedUser cfg found cmp now).reason = none
          ↔ matchPassword cmp = some true)) := by
  refine ⟨?_, ?_, ?_⟩
  · cases found with
    | none => simp [getAuthenticatedUser]
    | some u =>
      simp only [getAuthenticatedUser]
      by_cases h : isLocked u now
      · simp [h]
      · simp only [h, if_false, Bool.false_eq_true]
        cases cmp with
        | ok b => cases b <;> simp [matchPassword]
        | err => simp [matchPassword]
  · rintro u rfl h
    refine ⟨?_, ?_, ?_⟩
    · simp [getAuthenticatedUser, h]
    · simp [getAuthenticatedUser, h]
    · intro cmp2; simp [getAuthenticatedUser, h]
  · rintro u rfl h
    constructor
    · cases cmp with
      | ok b => cases b <;> simp [getAuthenticatedUser, h, matchPassword]
      | err => simp [getAuthenticatedUser, h, matchPassword]
    · cases cmp with
      | ok b => cases b <;> simp [getAuthenticatedUser, h, matchPassword]
      | err => simp [getAuthenticatedUser, h, matchPassword]

/-- Witness for C2: a correct-password attempt against the locked concrete
account is rejected with `ACCOUNT_LOCKED`. -/
theorem auth_reason_taxonomy_witness :
    (getAuthenticatedUser cfg0 (some aliceLocked) (.ok true) 10).reason
      = some .ACCOUNT_LOCKED :=
  ((auth_reason_taxonomy cfg0 (some aliceLocked) (.ok true) 10).2.1
    aliceLocked rfl (by decide)).1

/-- Counterexample for C8 as stated: when the internal comparison fails,
`matchPassword` falls out of the `catch` and returns `undefined` (`none`),
not the boolean value `false`. -/
theorem matchPassword_err_not_false :
    matchPassword .err = none ∧ matchPassword .err ≠ some false := by
  exact ⟨rfl, by decide⟩

/-- C8 amended: `matchPassword` never throws past the boundary — it is a
total function into `Option Bool`; on a plain mismatch it returns `false`,
on an internal comparison failure it returns `undefined` (a falsy value,
not the boolean `false`), and it returns `true` exactly when the
comparison succeeded with `true`. -/
theorem matchPassword_never_throws :
    matchPassword (.ok false) = some false
    ∧ matchPassword .err = none
    ∧ ∀ cmp, matchPassword cmp = some true ↔ cmp = .ok true := by
  refine ⟨rfl, rfl, ?_⟩
  intro cmp
  cases cmp with
  | ok b => cases b <;> simp [matchPassword]
  | err => simp [matchPassword]

/-- C4 failing input evaluated on the code: all records carrying the
supplied token `T` are expired at instant 100, yet redemption succeeds,
because the unexpired record `U` satisfies the `$gt` condition of the
`findOne` on its own (no `$elemMatch`). -/
theorem refresh_expired_cross_match :
    (refreshEndpoint cfg0 c4user "T" "N" 100).isSome = true
    ∧ c4user.refreshTokens.all
        (fun r => r.token != "T" || decide (r.expiresAt ≤ 100)) = true := by
  exact ⟨by decide, by decide⟩

/-- A token signed with the configured server secret but carrying issuer
and audience claims different from the configured ones. -/
def rogueToken : Token :=
  .signed ⟨"u1", "alice@example.com", "alice", "user"⟩
    "evil-issuer" "evil-audience" 2000 cfg0.jwtSecret

/-- The `findById` lookup of the witnesses: only `alice` exists. -/
def aliceLookup : String → Option UserDoc :=
  fun i => if i = "u1" then some alice else none

/-- Counterexample for C7 as stated: `protect` accepts a well-signed,
in-date token whose issuer and audience claims do NOT match the configured
expected values, because `jwt.verify` is called without `issuer` or
`audience` options. -/
theorem protect_ignores_issuer_audience :
    protect cfg0 (some rogueToken) aliceLookup 10 = .ok alice
    ∧ ("evil-issuer" ≠ cfg0.jwtIssuer ∧ "evil-audience" ≠ cfg0.jwtAudience) := by
  exact ⟨by decide, by decide, by decide⟩

/-- C7 amended: access tokens embed the account id, email, handle and role
and are signed with the server secret together with the configured issuer
and audience claims; at verification time `protect` checks the signature
against the server secret and the expiry (but not issuer or audience), and
fails distinctly for an expired token, a malformed or wrongly-signed
token, and a well-formed token whose subject account does not exist;
success requires a token signed with the server secret, unexpired, whose
subject exists and is active. -/
theorem token_issue_verify_contract :
    (∀ (cfg : Config) (u : UserDoc) (now : Nat),
      getSignedJwtToken cfg u now
        = .signed ⟨u.id, u.email, u.username, u.role⟩ cfg.jwtIssuer
            cfg.jwtAudience (now + jwtExpireMs) cfg.jwtSecret)
    ∧ (∀ (cfg : Config) (p : JwtPayload) (iss aud : String) (e : Nat)
        (lookup : String → Option UserDoc) (now : Nat), e ≤ now →
        protect cfg (some (.signed p iss aud e cfg.jwtSecret)) lookup now
          = .tokenExpired)
    ∧ (∀ (cfg : Config) (lookup : String → Option UserDoc) (now : Nat),
        protect cfg (some .malformed) lookup now = .invalidToken)
    ∧ (∀ (cfg : Config) (p : JwtPayload) (iss aud : String) (e : Nat)
        (key : String) (lookup : String → Option UserDoc) (now : Nat),
        key ≠ cfg.jwtSecret →
        protect cfg (some (.signed p iss aud e key)) lookup now = .invalidToken)
    ∧ (∀ (cfg : Config) (p : JwtPayload) (iss aud : String) (e : Nat)
        (lookup : String → Option UserDoc) (now : Nat), now < e →
        lookup p.id = none →
        protect cfg (some (.signed p iss aud e cfg.jwtSecret)) lookup now
          = .userNotFound)
    ∧ (∀ (cfg : Config) (tok : Token) (lookup : String → Option UserDoc)
        (now : Nat) (u : UserDoc),
        protect cfg (some tok) lookup now = .ok u →
        ∃ p iss aud e, tok = .signed p iss aud e cfg.jwtSecret ∧ now < e
          ∧ lookup p.id = some u ∧ u.isActive = true) := by
  refine ⟨fun _ _ _ => rfl, ?_, fun _ _ _ => rfl, ?_, ?_, ?_⟩
  · intro cfg p iss aud e lookup now he
    simp [protect, jwtVerify, Nat.not_lt.mpr, he]
  · intro cfg p iss aud e key lookup now hk
    simp [protect, jwtVerify, hk]
  · intro cfg p iss aud e lookup now he hl
    simp [protect, jwtVerify, Nat.not_le.mpr he, hl]
  · intro cfg tok lookup now u h
    cases tok with
    | malformed => simp [protect, jwtVerify] at h
    | signed p iss aud e key =>
      by_cases hk : key = cfg.jwtSecret
      · subst hk
        by_cases he : e ≤ now
        · simp [protect, jwtVerify, he] at h
        · push_neg at he
          cases hl : lookup p.id with
          | none => simp [protect, jwtVerify, Nat.not_le.mpr he, hl] at h
          | some v =>
            by_cases ha : v.isActive
            · refine ⟨p, iss, aud, e, rfl, he, ?_, ?_⟩
              · rw [hl]
                simp [protect, jwtVerify, Nat.not_le.mpr he, hl, ha] at h
                rw [h]
              · simp [protect, jwtVerify, Nat.not_le.mpr he, hl, ha] at h
                rw [← h]; exact ha
            · simp [protect, jwtVerify, Nat.not_le.mpr he, hl, ha] at h
      · simp [protect, jwtVerify, hk] at h

/-- Witness for C7 amended: an expired but well-signed token is rejected
with the distinct expiry error. -/
theorem token_issue_verify_contract_witness :
    protect cfg0 (some (.signed ⟨"u1", "a@b.co", "alice", "user"⟩
      cfg0.jwtIssuer cfg0.jwtAudience 5 cfg0.jwtSecret)) aliceLookup 10
      = .tokenExpired :=
  token_issue_verify_contract.2.1 cfg0 ⟨"u1", "a@b.co", "alice", "user"⟩
    cfg0.jwtIssuer cfg0.jwtAudience 5 aliceLookup 10 (by decide)

/-- The concrete account of C3's witness: one stored, unexpired
refresh-token record with token `T`. -/
def uC3 : UserDoc := { alice with refreshTokens := [⟨"T", 0, 1000⟩] }

/-- C3: redeeming a stored, non-expired refresh token succeeds, removes the
consumed record, appends exactly one fresh record carrying the newly
generated token (distinct from the consumed one, as `crypto.randomBytes`
output), returns a new access token together with the new refresh token,
and a second redemption of the consumed token afterwards fails at any
instant. -/
theorem refresh_rotation (cfg : Config) (u : UserDoc) (tok newTok : String)
    (now : Nat) (r : RefreshTokenRec) (hr : r ∈ u.refreshTokens)
    (htok : r.token = tok) (hexp : now < r.expiresAt) (hfresh : newTok ≠ tok) :
    ∃ u', refreshEndpoint cfg u tok newTok now
        = some (u', getSignedJwtToken cfg u now, newTok)
      ∧ u'.refreshTokens
          = u.refreshTokens.filter (fun s => s.token ≠ tok)
            ++ [⟨newTok, now, now + refreshExpireMs⟩]
      ∧ ∀ tok2 now2, refreshEndpoint cfg u' tok tok2 now2 = none := by
  have hq : refreshQueryMatches u tok now = true := by
    simp only [refreshQueryMatches, Bool.and_eq_true, List.any_eq_true]
    exact ⟨⟨r, hr, by simp [htok]⟩, ⟨r, hr, by simp [hexp]⟩⟩
  refine ⟨generateRefreshToken (removeRefreshToken u tok) newTok now, ?_, ?_, ?_⟩
  · simp [refreshEndpoint, hq]
  · simp [generateRefreshToken, removeRefreshToken]
  · intro tok2 now2
    have hnone : ((generateRefreshToken (removeRefreshToken u tok) newTok
        now).refreshTokens.any (fun s => s.token = tok)) = false := by
      rw [List.any_eq_false]
      intro s hs
      simp only [generateRefreshToken, removeRefreshToken, List.mem_append,
        List.mem_filter, List.mem_singleton] at hs
      rcases hs with ⟨_, hsp⟩ | rfl
      · simpa using hsp
      · simpa using hfresh
    simp [refreshEndpoint, refreshQueryMatches, hnone]

/-- Witness for C3 at the concrete account: redeem `T` at instant 5 with
fresh token `N`, then observe the rotated state and that `T` is dead. -/
theorem refresh_rotation_witness :
    ∃ u', refreshEndpoint cfg0 uC3 "T" "N" 5
        = some (u', getSignedJwtToken cfg0 uC3 5, "N")
      ∧ u'.refreshTokens
          = uC3.refreshTokens.filter (fun s => s.token ≠ "T")
            ++ [⟨"N", 5, 5 + refreshExpireMs⟩]
      ∧ ∀ tok2 now2, refreshEndpoint cfg0 u' "T" tok2 now2 = none :=
  refresh_rotation cfg0 uC3 "T" "N" 5 ⟨"T", 0, 1000⟩ (by decide) rfl
    (by decide) (by decide)

/-- A concrete stand-in for the SHA-256 digest used by the witnesses. -/
def h0 : String → String := fun s => s ++ "#"

/-- A concrete stand-in for the bcrypt pre-save hook used by the witnesses. -/
def bh0 : String → String := fun s => "B" ++ s

/-- The concrete account of C5's witness: a pending verification digest and
a pending reset digest, both unexpired at instant 10. -/
def uC5 : UserDoc :=
  { alice with
    emailVerificationToken := some "tok#", emailVerificationExpire := some 100,
    resetPasswordToken := some "rtk#", resetPasswordExpire := some 50 }

/-- C5: for both verification and reset tokens, consumption succeeds iff
the digest of the supplied cleartext equals the stored digest and the
stored expiry is later than now; on success the digest and expiry are
cleared — so a second consumption with the same cleartext fails at any
instant — and the kind-specific effect is applied: the email-verified flag
for verification, and the new password digest plus an emptied
`refreshTokens` collection for reset. -/
theorem token_consume_single_use (h bhash : String → String) (u : UserDoc)
    (supplied newPw : String) (now : Nat) :
    ((verifyEmail h u supplied now).isSome
      ↔ u.emailVerificationToken = some (h supplied)
        ∧ ∃ e, u.emailVerificationExpire = some e ∧ now < e)
    ∧ (∀ u', verifyEmail h u supplied now = some u' →
        u'.emailVerified = true ∧ u'.emailVerificationToken = none
        ∧ u'.emailVerificationExpire = none
        ∧ ∀ now2, verifyEmail h u' supplied now2 = none)
    ∧ ((resetPassword h bhash u supplied newPw now).isSome
      ↔ u.resetPasswordToken = some (h supplied)
        ∧ ∃ e, u.resetPasswordExpire = some e ∧ now < e)
    ∧ (∀ u', resetPassword h bhash u supplied newPw now = some u' →
        u'.password = bhash newPw ∧ u'.refreshTokens = []
        ∧ u'.resetPasswordToken = none ∧ u'.resetPasswordExpire = none
        ∧ ∀ now2 pw2, resetPassword h bhash u' supplied pw2 now2 = none) := by
  refine ⟨?_, ?_, ?_, ?_⟩
  · cases hE : u.emailVerificationExpire with
    | none => simp [verifyEmail, hE]
    | some e =>
      by_cases hT : u.emailVerificationToken = some (h supplied) <;>
        simp [verifyEmail, hE, hT, apply_ite Option.isSome]
  · intro u' hu'
    rw [verifyEmail] at hu'
    split at hu'
    · cases hu'
      exact ⟨rfl, rfl, rfl, fun now2 => by simp [verifyEmail]⟩
    · exact absurd hu' (by simp)
  · cases hE : u.resetPasswordExpire with
    | none => simp [resetPassword, hE]
    | some e =>
      by_cases hT : u.resetPasswordToken = some (h supplied) <;>
        simp [resetPassword, hE, hT, apply_ite Option.isSome]
  · intro u' hu'
    rw [resetPassword] at hu'
    split at hu'
    · cases hu'
      exact ⟨rfl, rfl, rfl, rfl, fun now2 pw2 => by simp [resetPassword]⟩
    · exact absurd hu' (by simp)

/-- Witness for C5: both consumptions succeed on the concrete pending
account at instant 10 with the matching cleartexts. -/
theorem token_consume_single_use_witness :
    (verifyEmail h0 uC5 "tok" 10).isSome = true
    ∧ (resetPassword h0 bh0 uC5 "rtk" "NewPw1!" 10).isSome = true :=
  ⟨(token_consume_single_use h0 bh0 uC5 "tok" "NewPw1!" 10).1.mpr
      ⟨by decide, 100, by decide, by decide⟩,
    (token_consume_single_use h0 bh0 uC5 "rtk" "NewPw1!" 10).2.2.1.mpr
      ⟨by decide, 50, by decide, by decide⟩⟩

/-- C9: when out-of-band delivery fails, the account created by `register`
still exists afterward (same handle and email) while the verification-token
digest and expiry are rolled back to absent and the response is an error;
likewise a failed reset-email delivery in `forgotPassword` rolls back the
reset-token digest and expiry. -/
theorem email_failure_rollback (h : String → String) (created u : UserDoc)
    (ver rtok reset : String) (now : Nat) :
    ((register h created ver rtok .failed now).stored.emailVerificationToken
        = none
    ∧ (register h created ver rtok .failed now).stored.emailVerificationExpire
        = none
    ∧ (register h created ver rtok .failed now).stored.username
        = created.username
    ∧ (register h created ver rtok .failed now).stored.email = created.email
    ∧ (register h created ver rtok .failed now).success = false)
    ∧ ((forgotPassword h u reset .failed now).stored.resetPasswordToken = none
    ∧ (forgotPassword h u reset .failed now).stored.resetPasswordExpire = none
    ∧ (forgotPassword h u reset .failed now).stored.username = u.username
    ∧ (forgotPassword h u reset .failed now).success = false) := by
  exact ⟨⟨rfl, rfl, rfl, rfl, rfl⟩, ⟨rfl, rfl, rfl, rfl⟩⟩

/-- The concrete account of C6's witness: five failures and a lock that
has already expired at the login instant. -/
def uC6 : UserDoc := { alice with loginAttempts := 5, lockUntil := some 100 }

/-- C6: on a successful password match against an account that is not
currently locked (no lock, or a lock whose expiry has elapsed), a positive
failed-attempt counter is cleared together with the lock-expiry field, the
last-login timestamp is set to the current time, and the login succeeds
with a fresh token pair — so after the lockout window elapses a
correct-password login succeeds and leaves the failure counter at zero. -/
theorem success_resets_lockout (cfg : Config) (u : UserDoc)
    (cmp : CompareOutcome) (newTok : String) (now : Nat)
    (hM : matchPassword cmp = some true) (hAtt : 0 < u.loginAttempts)
    (hNL : u.lockUntil = none ∨ ∃ t, u.lockUntil = some t ∧ t ≤ now) :
    isLocked u now = false
    ∧ ∃ u' acc, login cfg (some u) cmp newTok now
        = ⟨some u', none, some (acc, newTok)⟩
      ∧ u'.loginAttempts = 0 ∧ u'.lockUntil = none
      ∧ u'.lastLogin = some now := by
  have hL : isLocked u now = false := by
    rcases hNL with hnone | ⟨t, ht, hle⟩
    · simp [isLocked, hnone]
    · simp [isLocked, ht, Nat.not_lt.mpr hle]
  refine ⟨hL, ?_⟩
  refine ⟨generateRefreshToken (cleanExpiredTokens
      { { u with loginAttempts := 0, lockUntil := none } with
        lastLogin := some now } now) newTok now,
    getSignedJwtToken cfg (cleanExpiredTokens
      { { u with loginAttempts := 0, lockUntil := none } with
        lastLogin := some now } now) now, ?_, ?_, ?_, ?_⟩
  · simp [login, getAuthenticatedUser, hL, hM, hAtt]
  · simp [generateRefreshToken, cleanExpiredTokens]
  · simp [generateRefreshToken, cleanExpiredTokens]
  · simp [generateRefreshToken, cleanExpiredTokens]

/-- Witness for C6: the locked-but-elapsed concrete account logs in
successfully at instant 2000 and ends with a clean lockout state. -/
theorem success_resets_lockout_witness :
    isLocked uC6 2000 = false
    ∧ ∃ u' acc, login cfg0 (some uC6) (.ok true) "N" 2000
        = ⟨some u', none, some (acc, "N")⟩
      ∧ u'.loginAttempts = 0 ∧ u'.lockUntil = none
      ∧ u'.lastLogin = some 2000 :=
  success_resets_lockout cfg0 uC6 (.ok true) "N" 2000 rfl (by decide)
    (Or.inr ⟨100, rfl, by decide⟩)

/-- While the counter stays below the configured maximum, each failed
attempt just increments it and the account stays unlocked. -/
theorem failedLogins_below (cfg : Config) :
    ∀ (ts : List Nat) (u : UserDoc), u.lockUntil = none →
      u.loginAttempts + ts.length < cfg.maxLoginAttempts →
      failedLogins cfg u ts
        = { u with loginAttempts := u.loginAttempts + ts.length } := by
  intro ts
  induction ts with
  | nil =>
    intro u hl hb
    simp [failedLogins]
  | cons t ts ih =>
    intro u hl hb
    simp only [List.length_cons] at hb
    have hnl : isLocked u t = false := by simp [isLocked, hl]
    have hcond : ¬ cfg.maxLoginAttempts ≤ u.loginAttempts + 1 := by omega
    have hstep : attemptStep cfg u (.ok false) t
        = { u with loginAttempts := u.loginAttempts + 1 } := by
      simp [attemptStep, getAuthenticatedUser, hnl, matchPassword,
        incLoginAttempts, hl, hcond]
    have hrw : failedLogins cfg u (t :: ts)
        = failedLogins cfg (attemptStep cfg u (.ok false) t) ts := rfl
    rw [hrw, hstep, ih { u with loginAttempts := u.loginAttempts + 1 } hl
      (by show u.loginAttempts + 1 + ts.length < cfg.maxLoginAttempts; omega)]
    simp only [UserDoc.mk.injEq, and_true, true_and, List.length_cons]
    omega

/-- C1: starting from an unlocked account with a zero counter, the first
`maxAttempts - 1` consecutive failed logins leave the account unlocked;
the `maxAttempts`-th failed login, at instant `tN`, locks it with
`lockUntil = tN + LOCKOUT_TIME minutes` (30 minutes under the shipped
configuration), and a subsequent correct-password login at any instant
before that expiry is rejected with `ACCOUNT_LOCKED`. -/
theorem lockout_after_max_failures (cfg : Config) (u : UserDoc)
    (ts : List Nat) (tN t' : Nat) (h0a : u.loginAttempts = 0)
    (h0l : u.lockUntil = none) (hlen : ts.length + 1 = cfg.maxLoginAttempts)
    (ht' : t' < tN + cfg.lockoutTime * 60 * 1000) :
    (failedLogins cfg u ts).lockUntil = none
    ∧ (failedLogins cfg u ts).loginAttempts = cfg.maxLoginAttempts - 1
    ∧ (failedLogins cfg u (ts ++ [tN])).loginAttempts = cfg.maxLoginAttempts
    ∧ (failedLogins cfg u (ts ++ [tN])).lockUntil
        = some (tN + cfg.lockoutTime * 60 * 1000)
    ∧ (getAuthenticatedUser cfg (some (failedLogins cfg u (ts ++ [tN])))
        (.ok true) t').reason = some .ACCOUNT_LOCKED := by
  have hb : u.loginAttempts + ts.length < cfg.maxLoginAttempts := by omega
  have hv := failedLogins_below cfg ts u h0l hb
  have hfin : failedLogins cfg u (ts ++ [tN])
      = attemptStep cfg (failedLogins cfg u ts) (.ok false) tN := by
    simp [failedLogins, List.foldl_append]
  have hc : cfg.maxLoginAttempts ≤ u.loginAttempts + ts.length + 1 := by omega
  have hfinal : failedLogins cfg u (ts ++ [tN])
      = { u with
            loginAttempts := u.loginAttempts + ts.length + 1,
            lockUntil := some (tN + cfg.lockoutTime * 60 * 1000) } := by
    rw [hfin, hv]
    simp [attemptStep, getAuthenticatedUser, isLocked, matchPassword,
      incLoginAttempts, h0l, hc]
  refine ⟨?_, ?_, ?_, ?_, ?_⟩
  · rw [hv]; exact h0l
  · rw [hv]; show u.loginAttempts + ts.length = cfg.maxLoginAttempts - 1; omega
  · rw [hfinal]
    show u.loginAttempts + ts.length + 1 = cfg.maxLoginAttempts
    omega
  · rw [hfinal]
  · rw [hfinal]
    have hlk : isLocked
        { u with
            loginAttempts := u.loginAttempts + ts.length + 1,
            lockUntil := some (tN + cfg.lockoutTime * 60 * 1000) } t'
        = true := by
      simp [isLocked, ht']
    simp [getAuthenticatedUser, hlk]

/-- Witness for C1 under the shipped configuration: four failures at
instants 0..3 leave `alice` unlocked; the fifth failure at instant 4 locks
her until 4 + 30 minutes, and a correct-password login at instant 100 is
rejected with `ACCOUNT_LOCKED`. -/
theorem lockout_after_max_failures_witness :
    (failedLogins cfg0 alice [0, 1, 2, 3]).lockUntil = none
    ∧ (failedLogins cfg0 alice [0, 1, 2, 3]).loginAttempts
        = cfg0.maxLoginAttempts - 1
    ∧ (failedLogins cfg0 alice ([0, 1, 2, 3] ++ [4])).loginAttempts
        = cfg0.maxLoginAttempts
    ∧ (failedLogins cfg0 alice ([0, 1, 2, 3] ++ [4])).lockUntil
        = some (4 + cfg0.lockoutTime * 60 * 1000)
    ∧ (getAuthenticatedUser cfg0
        (some (failedLogins cfg0 alice ([0, 1, 2, 3] ++ [4])))
        (.ok true) 100).reason = some .ACCOUNT_LOCKED :=
  lockout_after_max_failures cfg0 alice [0, 1, 2, 3] 4 100 rfl rfl rfl
    (by decide)

/-- Auxiliary step of the lockout invariant: if every previously set lock
implied a saturated counter, then after `incLoginAttempts` a set lock
still implies a saturated counter. -/
theorem inc_locked_bound (cfg : Config) (u : UserDoc) (now : Nat)
    (ih : ∀ s, u.lockUntil = some s → cfg.maxLoginAttempts ≤ u.loginAttempts) :
    ∀ t, (incLoginAttempts cfg u now).lockUntil = some t →
      cfg.maxLoginAttempts ≤ (incLoginAttempts cfg u now).loginAttempts := by
  intro t ht
  unfold incLoginAttempts at ht ⊢
  cases hu : u.lockUntil with
  | none =>
    simp only [hu] at ht ⊢
    by_cases hcnd : cfg.maxLoginAttempts ≤ u.loginAttempts + 1
    · simpa using hcnd
    · rw [if_neg hcnd] at ht
      exact absurd ht (by simp)
  | some s =>
    have hmax := ih s hu
    simp only [hu] at ht ⊢
    by_cases h1 : s < now
    · rw [if_pos h1] at ht
      simp at ht
    · rw [if_neg h1]
      have h2 : cfg.maxLoginAttempts ≤ u.loginAttempts + 1 := by omega
      simpa using h2

/-- Lockout-state invariant: in every account state reachable by the login
state machine, a set `lockUntil` implies the failed-attempt counter has
reached the configured maximum. -/
theorem reachable_locked_counter (cfg : Config) :
    ∀ u : UserDoc, Reachable cfg u →
      ∀ t, u.lockUntil = some t →
        cfg.maxLoginAttempts ≤ u.loginAttempts := by
  intro u h
  induction h with
  | fresh u h0 hl =>
    intro t ht
    rw [hl] at ht
    exact absurd ht (by simp)
  | attempt u cmp now _ ih =>
    intro t ht
    by_cases hL : isLocked u now
    · have hstep : attemptStep cfg u cmp now = incLoginAttempts cfg u now := by
        simp [attemptStep, getAuthenticatedUser, hL]
      rw [hstep] at ht ⊢
      exact inc_locked_bound cfg u now (fun s hs => ih s hs) t ht
    · rw [Bool.not_eq_true] at hL
      cases cmp with
      | ok b =>
        cases b with
        | true =>
          by_cases ha : 0 < u.loginAttempts
          · have hstep : attemptStep cfg u (.ok true) now
                = { u with loginAttempts := 0, lockUntil := none } := by
              simp [attemptStep, getAuthenticatedUser, hL, matchPassword, ha]
            rw [hstep] at ht
            exact absurd ht (by simp)
          · have hstep : attemptStep cfg u (.ok true) now = u := by
              simp [attemptStep, getAuthenticatedUser, hL, matchPassword, ha]
            rw [hstep] at ht ⊢
            exact ih t ht
        | false =>
          have hstep : attemptStep cfg u (.ok false) now
              = incLoginAttempts cfg u now := by
            simp [attemptStep, getAuthenticatedUser, hL, matchPassword]
          rw [hstep] at ht ⊢
          exact inc_locked_bound cfg u now (fun s hs => ih s hs) t ht
      | err =>
        have hstep : attemptStep cfg u .err now
            = incLoginAttempts cfg u now := by
          simp [attemptStep, getAuthenticatedUser, hL, matchPassword]
        rw [hstep] at ht ⊢
        exact inc_locked_bound cfg u now (fun s hs => ih s hs) t ht

/-- C10: in any reachable account state that is currently locked, the
counter has already reached the configured maximum, so a login attempt —
with any password — is rejected with `ACCOUNT_LOCKED`, increments the
counter, and re-sets `lockUntil` to `now + LOCKOUT_TIME minutes`,
extending the lock by a fresh full lockout window. -/
theorem locked_attempt_extends_lock (cfg : Config) (u : UserDoc)
    (cmp : CompareOutcome) (now : Nat) (hr : Reachable cfg u)
    (hl : isLocked u now = true) :
    cfg.maxLoginAttempts ≤ u.loginAttempts
    ∧ (getAuthenticatedUser cfg (some u) cmp now).reason
        = some .ACCOUNT_LOCKED
    ∧ attemptStep cfg u cmp now
        = { u with
              loginAttempts := u.loginAttempts + 1,
              lockUntil := some (now + cfg.lockoutTime * 60 * 1000) } := by
  obtain ⟨s, hs, hns⟩ : ∃ s, u.lockUntil = some s ∧ now < s := by
    unfold isLocked at hl
    cases hu : u.lockUntil with
    | none => rw [hu] at hl; simp at hl
    | some s => rw [hu] at hl; exact ⟨s, rfl, by simpa using hl⟩
  have hmax := reachable_locked_counter cfg u hr s hs
  have hnlt : ¬ s < now := by omega
  have hcnd : cfg.maxLoginAttempts ≤ u.loginAttempts + 1 := by omega
  refine ⟨hmax, ?_, ?_⟩
  · simp [getAuthenticatedUser, hl]
  · unfold attemptStep
    simp only [getAuthenticatedUser, hl, if_true]
    unfold incLoginAttempts
    rw [hs]
    simp [hnlt, hcnd]

/-- Witness for C10: after five failed attempts at instant 0, `alice` is
locked; an attempt at instant 10 is rejected with `ACCOUNT_LOCKED` and the
lock expiry moves to 10 + 30 minutes. -/
theorem locked_attempt_extends_lock_witness :
    cfg0.maxLoginAttempts
        ≤ (failedLogins cfg0 alice [0, 0, 0, 0, 0]).loginAttempts
    ∧ (getAuthenticatedUser cfg0
        (some (failedLogins cfg0 alice [0, 0, 0, 0, 0])) .err 10).reason
        = some .ACCOUNT_LOCKED
    ∧ attemptStep cfg0 (failedLogins cfg0 alice [0, 0, 0, 0, 0]) .err 10
        = { failedLogins cfg0 alice [0, 0, 0, 0, 0] with
              loginAttempts :=
                (failedLogins cfg0 alice [0, 0, 0, 0, 0]).loginAttempts + 1,
              lockUntil := some (10 + cfg0.lockoutTime * 60 * 1000) } := by
  have h0 : Reachable cfg0 alice := .fresh alice rfl rfl
  have h5 : Reachable cfg0 (failedLogins cfg0 alice [0, 0, 0, 0, 0]) := by
    exact .attempt _ (.ok false) 0 (.attempt _ (.ok false) 0
      (.attempt _ (.ok false) 0 (.attempt _ (.ok false) 0
        (.attempt _ (.ok false) 0 h0))))
  exact locked_attempt_extends_lock cfg0 _ .err 10 h5 (by decide)

end SMP
